import Mathlib

/-!
# Verification of `src/scraper/scraper.py`

Shallow embedding of the scraper module of the `cascadepooling` repository:
the SIC-to-tier classifier (`SIC_RANGES`, `sic_to_tier`), the Wikipedia
Chapter-11 scraper (`scrape_wikipedia_bankruptcies`,
`builld_disrupted_name_set`), the SEC EDGAR fetchers (`fetch_all_tickers`,
`fetch_company_metadata`, `build_company_dataset`) and the labeler
(`label_companies` with its inner `is_disrupted`).

Modelling conventions:
* Python strings are Lean `String`s; `str.upper()` / `str.strip()` /
  the `in` substring test are embedded as `pyUpper` / `pyStrip` / `pyIn`,
  defined over the underlying character lists.
* Network I/O is abstracted by passing the response (or the error outcome
  of the request) as an argument: a `try`-guarded request that may fail
  becomes an `Except`/sum argument, and a raised-and-uncaught exception
  becomes an `Except.error` result that the embedding propagates.
* A pandas `DataFrame` is a list of records (one structure per row);
  a Python `set[str]` handed to the labeler is a list of its elements
  (the labeler only tests membership via `any`, so order is irrelevant);
  the set built by `builld_disrupted_name_set` is a `Finset String`.
* Logging and `time.sleep` have no observable effect on the returned data
  and are not modelled, except for the one logging statement in
  `label_companies` that divides by `len(companies)`: the
  `ZeroDivisionError` it can raise is modelled as an `Except.error`.
-/

/-! ## String primitives (Python `upper`, `strip`, substring `in`) -/

/-- Python `str.upper()` (per-character uppercasing; the names in scope are
ASCII, where `Char.toUpper` agrees with Python). -/
def pyUpper (s : String) : String := ⟨s.data.map Char.toUpper⟩

/-- Python `str.strip()`: drop leading and trailing whitespace. -/
def pyStrip (s : String) : String :=
  ⟨((s.data.dropWhile Char.isWhitespace).reverse.dropWhile Char.isWhitespace).reverse⟩

/-- The normalization `name.upper().strip()` applied by the scraper. -/
def pyNorm (s : String) : String := pyStrip (pyUpper s)

/-- Does the character list `l` start with `sub`? -/
def chStarts : List Char → List Char → Bool
  | [], _ => true
  | _ :: _, [] => false
  | a :: as, b :: bs => a == b && chStarts as bs

/-- Does `sub` occur as a contiguous run inside `l`? -/
def chOccurs (sub : List Char) : List Char → Bool
  | [] => sub.isEmpty
  | c :: tl => chStarts sub (c :: tl) || chOccurs sub tl

/-- Python `sub in s` on strings: substring containment. -/
def pyIn (sub s : String) : Bool := chOccurs sub.data s.data

/-! ## SIC-to-tier classifier

Source (`scraper.py`):
```
SIC_RANGES = [
    (range(100, 1000), 0),
    (range(2000, 2800), 1),
    (range(2800, 3600), 1),
    (range(3000, 3600), 3),
    (range(3600, 3800), 2),
    (range(3800, 4000), 2),
    (range(5000, 5200), 3),
    (range(5200, 5400), 4),
    (range(5400, 5800), 4),
    (range(5900, 6000), 4),
]

def sic_to_tier(sic: int) -> int:
    for sic_range, tier in SIC_RANGES:
        if sic in sic_range:
            return tier
    return 2
```
A Python `range(a, b)` is the half-open interval `[a, b)`; `sic in range(a, b)`
is `a ≤ sic ∧ sic < b`. Each list entry is embedded as `((a, b), tier)`.
-/

def SIC_RANGES : List ((Int × Int) × Int) :=
  [((100, 1000), 0),
   ((2000, 2800), 1),
   ((2800, 3600), 1),
   ((3000, 3600), 3),
   ((3600, 3800), 2),
   ((3800, 4000), 2),
   ((5000, 5200), 3),
   ((5200, 5400), 4),
   ((5400, 5800), 4),
   ((5900, 6000), 4)]

/-- `sic in range(a, b)`. -/
def inRange (r : Int × Int) (sic : Int) : Bool := decide (r.1 ≤ sic ∧ sic < r.2)

/-- The `for sic_range, tier in ...` loop of `sic_to_tier`: first matching
range wins, fall through to 2. -/
def sicScan : List ((Int × Int) × Int) → Int → Int
  | [], _ => 2
  | (r, tier) :: rest, sic => if inRange r sic then tier else sicScan rest sic

/-- `sic_to_tier`: map SIC to supply chain tier. -/
def sic_to_tier (sic : Int) : Int := sicScan SIC_RANGES sic

/-! ## Data model (rows of the tabular outputs) -/

/-- One row of the companies table: the dict built by
`fetch_company_metadata`, plus the `ticker` column added in
`build_company_dataset` and the `disrupted` column added (as `some _`) by
`label_companies`. -/
structure CompanyRow where
  cik : String
  name : String
  sic : Int
  sic_description : String
  state : String
  n_10k : Nat
  n_8k : Nat
  n_total_filings : Nat
  tier : Int
  ticker : String
  disrupted : Option Int
deriving DecidableEq, Repr

/-- One row of the bankruptcies table built by
`scrape_wikipedia_bankruptcies`. -/
structure BankruptcyRecord where
  name : String
  year : Int
  disrupted : Int
  source : String
deriving DecidableEq, Repr

/-! ## Wikipedia Chapter-11 scraper -/

/-- A fetched category page: `mwPages` is the `<div id="mw-pages">` element
(`none` when absent), holding the stripped visible texts of its `<a>`
links (`link.get_text(strip=True)` for each link, in document order). -/
structure WikiPage where
  mwPages : Option (List String)
deriving DecidableEq, Repr

/-- Outcome of `self.session.get(url, timeout=15); resp.raise_for_status()`
for one year: an `requests.HTTPError`, any other exception, or a page. -/
inductive FetchResult where
  | httpError (status : Nat)
  | otherError (msg : String)
  | page (p : WikiPage)
deriving DecidableEq, Repr

/-- The body of the `for year in years` loop of
`scrape_wikipedia_bankruptcies`: the records contributed by one year.
A fetch error or a missing `mw-pages` div is logged and skipped (`continue`),
contributing nothing; otherwise every link with non-empty stripped text
yields a record. -/
def yearRecords (fetch : Int → FetchResult) (year : Int) : List BankruptcyRecord :=
  match fetch year with
  | .httpError _ => []
  | .otherError _ => []
  | .page p =>
    match p.mwPages with
    | none => []
    | some links =>
      (links.filter (fun name => name != "")).map fun name =>
        { name := name, year := year, disrupted := 1, source := "wikipedia_ch11" }

/-- A year's fetch "fails for any reason" in the sense of the spec: a
network/HTTP error, or a page without the expected `mw-pages` container. -/
def fetchFailed : FetchResult → Bool
  | .httpError _ => true
  | .otherError _ => true
  | .page p => p.mwPages.isNone

/-- `scrape_wikipedia_bankruptcies`, parametrized by the fetch outcome per
year: the concatenation of the per-year records, in year order. -/
def scrape_wikipedia_bankruptcies (fetch : Int → FetchResult) :
    List Int → List BankruptcyRecord
  | [] => []
  | year :: rest => yearRecords fetch year ++ scrape_wikipedia_bankruptcies fetch rest

/-- `builld_disrupted_name_set` (sic): flat uppercased-and-stripped set of
all scraped names; the empty set when the dataframe is empty. -/
def builld_disrupted_name_set (fetch : Int → FetchResult) (years : List Int) :
    Finset String :=
  let df := scrape_wikipedia_bankruptcies fetch years
  if df.isEmpty then ∅
  else (df.map fun r => pyNorm r.name).toFinset

/-! ## SEC EDGAR fetchers -/

/-- One entry of the bulk `company_tickers.json` document. -/
structure TickerEntry where
  cik_str : Nat
  ticker : String
  title : String
deriving DecidableEq, Repr

/-- One row of the tickers dataframe returned by `fetch_all_tickers`. -/
structure TickerRow where
  cik : String
  ticker : String
  name : String
deriving DecidableEq, Repr

/-- Python `str.zfill(width)` for a non-negative numeral string. -/
def pyZfill (s : String) (width : Nat) : String :=
  if width ≤ s.length then s
  else ⟨List.replicate (width - s.length) '0' ++ s.data⟩

/-- The per-CIK submissions JSON, reduced to the fields the code reads:
`data.get("name", "")`, `data.get("sic", 0) or 0` (`none` models a missing
or falsy `sic` field), `data.get("sicDescription", "")`,
`data.get("stateOfIncorporation", "")`, and
`data.get("filings", {}).get("recent", {}).get("form", [])`. -/
structure SubmissionsDoc where
  name : Option String
  sic : Option Int
  sicDescription : Option String
  stateOfIncorporation : Option String
  forms : List String
deriving DecidableEq, Repr

/-- `fetch_all_tickers`: the bulk listing request has NO `try`/`except`
around it in the source, so a failed request or decode (`Except.error`)
propagates to the caller unchanged. On success the first `max_companies`
entries become rows, with the CIK zero-padded to width 10. -/
def fetch_all_tickers (resp : Except String (List TickerEntry))
    (max_companies : Nat) : Except String (List TickerRow) :=
  match resp with
  | .error e => .error e
  | .ok entries =>
    .ok ((entries.take max_companies).map fun c =>
      { cik := pyZfill (toString c.cik_str) 10, ticker := c.ticker, name := c.title })

/-- `fetch_company_metadata`: the whole body is inside `try`/`except
Exception`, so any failure (modelled by `Except.error`) returns `None`.
On success, missing fields are defaulted (`sic` to 0, strings to `""`)
and `tier` is computed by `sic_to_tier`. `ticker` is set later by
`build_company_dataset`; `disrupted` is set later by `label_companies`. -/
def fetch_company_metadata (cik : String) (resp : Except String SubmissionsDoc) :
    Option CompanyRow :=
  match resp with
  | .error _ => none
  | .ok data =>
    let forms := data.forms
    let sic := data.sic.getD 0
    some
      { cik := cik
        name := data.name.getD ""
        sic := sic
        sic_description := data.sicDescription.getD ""
        state := data.stateOfIncorporation.getD ""
        n_10k := forms.count "10-K"
        n_8k := forms.count "8-K"
        n_total_filings := forms.length
        tier := sic_to_tier sic
        ticker := ""
        disrupted := none }

/-- `build_company_dataset`: calls `fetch_all_tickers` with no handler (its
error propagates), then for each ticker row fetches metadata; a `None`
result (a caught per-CIK failure) drops that row, a dict gains the
`ticker` column and is kept. -/
def build_company_dataset (tickersResp : Except String (List TickerEntry))
    (metaFetch : String → Except String SubmissionsDoc)
    (max_companies : Nat) : Except String (List CompanyRow) :=
  match fetch_all_tickers tickersResp max_companies with
  | .error e => .error e
  | .ok tickers =>
    .ok (tickers.filterMap fun row =>
      (fetch_company_metadata row.cik (metaFetch row.cik)).map fun meta =>
        { meta with ticker := row.ticker })

/-! ## Labeler -/

/-- Python exceptions that `label_companies` can raise. -/
inductive PyError where
  | zeroDivisionError
deriving DecidableEq, Repr

/-- The inner `is_disrupted` of `label_companies`:
`int(any(d in name_up or name_up in d for d in disrupted_names))` with
`name_up = name.upper().strip()`. -/
def is_disrupted (disrupted_names : List String) (name : String) : Int :=
  let name_up := pyNorm name
  if disrupted_names.any (fun d => pyIn d name_up || pyIn name_up d) then 1 else 0

/-- `label_companies`: copy the table, set `disrupted` per row from the
row's `name`, then log the share of positives. The log line computes
`100 * pos / len(companies)`, which raises `ZeroDivisionError` on an empty
table; otherwise the labelled table is returned. -/
def label_companies (companies : List CompanyRow) (disrupted_names : List String) :
    Except PyError (List CompanyRow) :=
  let labelled := companies.map fun c =>
    { c with disrupted := some (is_disrupted disrupted_names c.name) }
  if companies.length = 0 then .error .zeroDivisionError
  else .ok labelled

/-! ## Concrete instances used by witnesses -/

/-- A sample unlabelled company row. -/
def companyA : CompanyRow :=
  { cik := "0000000001", name := "Acme Inc", sic := 3571,
    sic_description := "ELECTRONIC COMPUTERS", state := "DE",
    n_10k := 2, n_8k := 3, n_total_filings := 5, tier := 1,
    ticker := "ACME", disrupted := none }

/-- `companyA` with the label column the labeler adds for the set
`{"ACME"}`. -/
def companyAlab : CompanyRow := { companyA with disrupted := some 1 }

/-- A submissions document whose `sic` field is missing. -/
def docNoSic : SubmissionsDoc :=
  { name := some "ACME INC", sic := none, sicDescription := none,
    stateOfIncorporation := some "DE", forms := ["10-K", "8-K", "8-K"] }

/-- A fetch outcome that fails (HTTP 404) for the year 2020 only. -/
def wfetch : Int → FetchResult := fun y =>
  if y = 2020 then .httpError 404
  else .page ⟨some ["Acme Inc", "Beta LLC", ""]⟩

/-! ## Helper lemmas -/

/-- The scan of `sic_to_tier` yields the fallback 2 or one of the tiers
declared in the list. -/
lemma sicScan_cases (l : List ((Int × Int) × Int)) (sic : Int) :
    sicScan l sic = 2 ∨ sicScan l sic ∈ l.map (fun p => p.2) := by
  induction l with
  | nil => exact Or.inl rfl
  | cons p rest ih =>
    obtain ⟨r, t⟩ := p
    by_cases h : inRange r sic = true
    · right; simp [sicScan, h]
    · rcases ih with h2 | hmem
      · left; simpa [sicScan, h]
      · right; simp [sicScan, h, hmem]

/-- If no declared range contains the code, the scan falls through to 2. -/
lemma sicScan_default (l : List ((Int × Int) × Int)) (code : Int)
    (h : ∀ p ∈ l, inRange p.1 code = false) : sicScan l code = 2 := by
  induction l with
  | nil => rfl
  | cons p rest ih =>
    obtain ⟨r, t⟩ := p
    have hr := h (r, t) (by simp)
    simp only [sicScan, hr, Bool.false_eq_true, if_false]
    exact ih fun q hq => h q (by simp [hq])

set_option maxHeartbeats 1000000 in
/-- `sic_to_tier` as an if-chain over the declared ranges, in declaration
order. -/
lemma sic_to_tier_eq (sic : Int) :
    sic_to_tier sic =
      if 100 ≤ sic ∧ sic < 1000 then 0
      else if 2000 ≤ sic ∧ sic < 2800 then 1
      else if 2800 ≤ sic ∧ sic < 3600 then 1
      else if 3000 ≤ sic ∧ sic < 3600 then 3
      else if 3600 ≤ sic ∧ sic < 3800 then 2
      else if 3800 ≤ sic ∧ sic < 4000 then 2
      else if 5000 ≤ sic ∧ sic < 5200 then 3
      else if 5200 ≤ sic ∧ sic < 5400 then 4
      else if 5400 ≤ sic ∧ sic < 5800 then 4
      else if 5900 ≤ sic ∧ sic < 6000 then 4
      else 2 := by
  simp only [sic_to_tier, SIC_RANGES, sicScan, inRange, decide_eq_true_eq]

set_option maxHeartbeats 1000000 in
/-- Every code in `[3000, 3600)` gets tier 1: the earlier range
`(2800, 3600)` wins over `(3000, 3600)`. -/
lemma sicVal_3000_3600 (c : Int) (h1 : 3000 ≤ c) (h2 : c < 3600) :
    sic_to_tier c = 1 := by
  rw [sic_to_tier_eq]; split_ifs <;> omega

set_option maxHeartbeats 1000000 in
/-- Tier 3 is assigned exactly on `[5000, 5200)`. -/
lemma sicVal_eq_3 (c : Int) : sic_to_tier c = 3 ↔ 5000 ≤ c ∧ c < 5200 := by
  rw [sic_to_tier_eq]
  constructor
  · intro h; split_ifs at h <;> omega
  · intro h; split_ifs <;> omega

/-- Characterization of the inner `is_disrupted` of `label_companies`:
the label is 1 exactly when some set entry contains, or is contained in,
the normalized company name. -/
lemma is_disrupted_eq_one_iff (S : List String) (name : String) :
    is_disrupted S name = 1 ↔
      ∃ d ∈ S, pyIn (pyNorm name) d = true ∨ pyIn d (pyNorm name) = true := by
  rw [is_disrupted]
  split_ifs with h
  · simp only [List.any_eq_true, Bool.or_eq_true] at h
    obtain ⟨d, hd, hc⟩ := h
    exact iff_of_true rfl ⟨d, hd, hc.symm⟩
  · simp only [List.any_eq_true, Bool.or_eq_true, not_exists] at h
    constructor
    · intro h0; exact absurd h0 (by decide)
    · rintro ⟨d, hd, hc⟩
      exact absurd ⟨hd, hc.symm⟩ (h d)

/-- `is_disrupted` only ever returns 0 or 1. -/
lemma is_disrupted_zero_or_one (S : List String) (name : String) :
    is_disrupted S name = 0 ∨ is_disrupted S name = 1 := by
  rw [is_disrupted]; split_ifs <;> simp

/-! ## Claim theorems -/

/-- Claim C1: for every company table and every set of normalized
(uppercased-and-trimmed) bankruptcy names, `label_companies` labels a
company 1 iff the company's uppercased-and-trimmed name is a substring of
some entry or some entry is a substring of it, and 0 otherwise. -/
theorem label_companies_bidirectional_substring_iff
    (companies : List CompanyRow) (S : List String)
    (hnorm : ∀ d ∈ S, pyNorm d = d)
    (labelled : List CompanyRow)
    (hok : label_companies companies S = Except.ok labelled) :
    ∀ c ∈ labelled,
      (c.disrupted = some 1 ↔
        ∃ d ∈ S, pyIn (pyNorm c.name) d = true ∨ pyIn d (pyNorm c.name) = true)
      ∧ ((¬ ∃ d ∈ S, pyIn (pyNorm c.name) d = true ∨ pyIn d (pyNorm c.name) = true) →
        c.disrupted = some 0) := by
  simp only [label_companies] at hok
  split_ifs at hok with hlen
  have hmap := Except.ok.inj hok
  subst hmap
  rintro c hc
  obtain ⟨c₀, hc₀, rfl⟩ := List.mem_map.mp hc
  constructor
  · simpa only [Option.some.injEq] using is_disrupted_eq_one_iff S c₀.name
  · intro hno
    have h01 := is_disrupted_zero_or_one S c₀.name
    rcases h01 with h0 | h1
    · simp [h0]
    · exact absurd ((is_disrupted_eq_one_iff S c₀.name).mp h1) hno

/-- Witness for C1 at the table `[companyA]` and the normalized set
`{"ACME"}`. -/
theorem label_companies_bidirectional_substring_iff_witness :
    (∀ d ∈ (["ACME"] : List String), pyNorm d = d) ∧
    label_companies [companyA] ["ACME"] = Except.ok [companyAlab] ∧
    ∀ c ∈ [companyAlab],
      (c.disrupted = some 1 ↔
        ∃ d ∈ (["ACME"] : List String),
          pyIn (pyNorm c.name) d = true ∨ pyIn d (pyNorm c.name) = true)
      ∧ ((¬ ∃ d ∈ (["ACME"] : List String),
          pyIn (pyNorm c.name) d = true ∨ pyIn d (pyNorm c.name) = true) →
        c.disrupted = some 0) :=
  ⟨by decide, rfl,
    label_companies_bidirectional_substring_iff [companyA] ["ACME"]
      (by decide) [companyAlab] rfl⟩

/-- Claim C2 (counterexample): the claim asserts the match is decided
after BOTH strings are uppercased and trimmed, and in particular that
`match` of "Acme" against the set holding "Acme Corp Holdings" is true;
the code leaves the
set entry as given, and this very pair does not match (label 0) even
though the claimed both-normalized substring relation does hold. -/
theorem is_disrupted_not_normalizing_counterexample :
    is_disrupted ["Acme Corp Holdings"] "Acme" = 0 ∧
    pyIn (pyNorm "Acme") (pyNorm "Acme Corp Holdings") = true := by decide

/-- Claim C2 (amended): only the company name is uppercased and trimmed;
a bankruptcy-set entry is compared exactly as given. The matcher reports
a match iff the raw entry is a substring of the normalized name or the
normalized name is a substring of the raw entry. The literal pairs: "Acme Corp"
against the set holding "ACME" matches and "Zeta" against the set holding
"ACME" does not, as claimed, but "Acme" against the set holding
"Acme Corp Holdings" does NOT match, since the entry is not uppercase. -/
theorem is_disrupted_matches_raw_entry_iff :
    (∀ A B : String, is_disrupted [B] A = 1 ↔
      (pyIn (pyNorm A) B = true ∨ pyIn B (pyNorm A) = true))
    ∧ is_disrupted ["ACME"] "Acme Corp" = 1
    ∧ is_disrupted ["Acme Corp Holdings"] "Acme" = 0
    ∧ is_disrupted ["ACME"] "Zeta" = 0 := by
  refine ⟨fun A B => ?_, by decide, by decide, by decide⟩
  rw [is_disrupted_eq_one_iff]
  simp

/-- Claim C3: `sic_to_tier` is total and deterministic over all integers
(it is a Lean function, hence total and deterministic by construction,
with no error outcome in its type) and always returns a value among
0, 1, 2, 3, 4. -/
theorem sic_to_tier_total_range (sic : Int) :
    sic_to_tier sic = 0 ∨ sic_to_tier sic = 1 ∨ sic_to_tier sic = 2 ∨
    sic_to_tier sic = 3 ∨ sic_to_tier sic = 4 := by
  rcases sicScan_cases SIC_RANGES sic with h | h
  · exact Or.inr (Or.inr (Or.inl h))
  · rw [sic_to_tier]
    simp only [SIC_RANGES, List.map_cons, List.map_nil, List.mem_cons,
      List.not_mem_nil, or_false] at h
    tauto

set_option maxHeartbeats 2000000 in
/-- Claim C4: the declared range list is scanned in declaration order and
the first range containing the code wins: a code contained both in the
range at position `i` and in the range at a later position `j` is given
the tier declared at position `i`. -/
theorem sic_to_tier_first_declared_range_wins (code : Int) (i j : Nat)
    (hij : i < j) (hj : j < SIC_RANGES.length)
    (hi : inRange ((SIC_RANGES.getD i default).1) code = true)
    (hjc : inRange ((SIC_RANGES.getD j default).1) code = true) :
    sic_to_tier code = (SIC_RANGES.getD i default).2 := by
  have hj10 : j < 10 := by simpa [SIC_RANGES] using hj
  interval_cases j <;> interval_cases i <;>
    simp only [SIC_RANGES, List.getD, List.get?, Option.getD_some, inRange,
      decide_eq_true_eq] at hi hjc ⊢ <;>
    first
      | (exfalso; omega)
      | exact sicVal_3000_3600 code hjc.1 hjc.2

/-- Witness for C4 at code 3100, which lies both in the range declared at
position 2 (tier 1) and in the range declared at position 3 (tier 3). -/
theorem sic_to_tier_first_declared_range_wins_witness :
    2 < 3 ∧ 3 < SIC_RANGES.length ∧
    inRange ((SIC_RANGES.getD 2 default).1) 3100 = true ∧
    inRange ((SIC_RANGES.getD 3 default).1) 3100 = true ∧
    sic_to_tier 3100 = (SIC_RANGES.getD 2 default).2 :=
  ⟨by decide, by decide, by decide, by decide,
    sic_to_tier_first_declared_range_wins 3100 2 3 (by decide) (by decide)
      (by decide) (by decide)⟩

/-- Claim C5: a code contained in no declared range (code 0 included) is
given tier 2, and a submissions document with a missing `sic` field is
not dropped by `fetch_company_metadata`: the code defaults to 0 and the
record gets the fallback tier 2. -/
theorem sic_to_tier_default_and_missing_sic_field (code : Int) (cik : String)
    (doc : SubmissionsDoc)
    (hcode : ∀ p ∈ SIC_RANGES, inRange p.1 code = false)
    (hdoc : doc.sic = none) :
    sic_to_tier code = 2 ∧
    ∃ m, fetch_company_metadata cik (Except.ok doc) = some m ∧
      m.sic = 0 ∧ m.tier = 2 := by
  refine ⟨sicScan_default SIC_RANGES code hcode, ⟨_, rfl, ?_, ?_⟩⟩
  · simp [hdoc]
  · show sic_to_tier (doc.sic.getD 0) = 2
    rw [hdoc]; decide

/-- Witness for C5 at code 0 and a document without a `sic` field. -/
theorem sic_to_tier_default_and_missing_sic_field_witness :
    docNoSic.sic = none ∧
    (∀ p ∈ SIC_RANGES, inRange p.1 0 = false) ∧
    (sic_to_tier 0 = 2 ∧
      ∃ m, fetch_company_metadata "0000000009" (Except.ok docNoSic) = some m ∧
        m.sic = 0 ∧ m.tier = 2) :=
  ⟨rfl, by decide,
    sic_to_tier_default_and_missing_sic_field 0 "0000000009" docNoSic
      (by decide) rfl⟩

/-- Claim C6: labeling is idempotent — when `label_companies T S`
returns a table, running `label_companies` on that table with the same
set returns the very same table. -/
theorem label_companies_idempotent (T : List CompanyRow) (S : List String)
    (T' : List CompanyRow) (h : label_companies T S = Except.ok T') :
    label_companies T' S = Except.ok T' := by
  simp only [label_companies] at h ⊢
  split_ifs at h with hlen
  have hmap := Except.ok.inj h
  subst hmap
  rw [if_neg (by simpa using hlen)]
  congr 1
  rw [List.map_map]
  have hff : ((fun c => { c with disrupted := some (is_disrupted S c.name) }) ∘
      (fun c : CompanyRow => { c with disrupted := some (is_disrupted S c.name) })) =
      fun c : CompanyRow => { c with disrupted := some (is_disrupted S c.name) } := by
    funext c; rfl
  rw [hff]

/-- Witness for C6 at the table `[companyA]` and the set `{"ACME"}`. -/
theorem label_companies_idempotent_witness :
    label_companies [companyA] ["ACME"] = Except.ok [companyAlab] ∧
    label_companies [companyAlab] ["ACME"] = Except.ok [companyAlab] :=
  ⟨rfl, label_companies_idempotent [companyA] ["ACME"] [companyAlab] rfl⟩

/-- Claim C7: a fetch failure (network error, HTTP error, or missing
`mw-pages` container) for year 2020 only skips that year: the name set
built over `[2019, 2020, 2021]` is exactly the normalized names extracted
from 2019 and 2021. -/
theorem wiki_scraper_skips_failed_year (fetch : Int → FetchResult)
    (h : fetchFailed (fetch 2020) = true) :
    builld_disrupted_name_set fetch [2019, 2020, 2021] =
      ((yearRecords fetch 2019 ++ yearRecords fetch 2021).map
        fun r => pyNorm r.name).toFinset := by
  have h20 : yearRecords fetch 2020 = [] := by
    rcases hf : fetch 2020 with s | m | p
    · simp [yearRecords, hf]
    · simp [yearRecords, hf]
    · rw [hf] at h
      simp only [fetchFailed, Option.isNone_iff_eq_none] at h
      simp [yearRecords, hf, h]
  simp only [builld_disrupted_name_set, scrape_wikipedia_bankruptcies, h20,
    List.nil_append, List.append_nil]
  by_cases hL : (yearRecords fetch 2019 ++ yearRecords fetch 2021).isEmpty
  · rw [if_pos hL]
    rw [List.isEmpty_iff] at hL
    simp [hL]
  · rw [if_neg hL]

/-- Witness for C7 with a fetch that returns HTTP 404 for 2020 and a
two-company page for every other year. -/
theorem wiki_scraper_skips_failed_year_witness :
    fetchFailed (wfetch 2020) = true ∧
    builld_disrupted_name_set wfetch [2019, 2020, 2021] =
      ((yearRecords wfetch 2019 ++ yearRecords wfetch 2021).map
        fun r => pyNorm r.name).toFinset :=
  ⟨by decide, wiki_scraper_skips_failed_year wfetch (by decide)⟩

/-- Claim C8: the bulk ticker-listing fetch is the one unguarded fetch:
an error outcome of the bulk request propagates unchanged through
`fetch_all_tickers` and `build_company_dataset` (terminating the run),
while a successful bulk fetch always yields a table no matter how the
per-CIK metadata fetches fail, and a failed per-CIK fetch is caught by
`fetch_company_metadata` and yields `none` (the row is skipped). -/
theorem bulk_ticker_fetch_unguarded :
    (∀ (e : String) (metaFetch : String → Except String SubmissionsDoc) (n : Nat),
      build_company_dataset (Except.error e) metaFetch n = Except.error e)
    ∧ (∀ (entries : List TickerEntry)
        (metaFetch : String → Except String SubmissionsDoc) (n : Nat),
      ∃ rows, build_company_dataset (Except.ok entries) metaFetch n = Except.ok rows)
    ∧ (∀ (e : String) (n : Nat),
      fetch_all_tickers (Except.error e) n = Except.error e)
    ∧ (∀ (cik e : String), fetch_company_metadata cik (Except.error e) = none) :=
  ⟨fun _ _ _ => rfl, fun _ _ _ => ⟨_, rfl⟩, fun _ _ => rfl, fun _ _ => rfl⟩

/-- Claim C9: `label_companies` on a zero-row table raises
`ZeroDivisionError` (the logging step divides the positive count by the
table length) instead of returning an empty labeled table. -/
theorem label_companies_empty_table_zero_division (S : List String)
    (T : List CompanyRow) (h : T.length = 0) :
    label_companies T S = Except.error PyError.zeroDivisionError := by
  simp only [label_companies, if_pos h]

/-- Witness for C9 at the empty table. -/
theorem label_companies_empty_table_zero_division_witness :
    ([] : List CompanyRow).length = 0 ∧
    label_companies [] ["ACME"] = Except.error PyError.zeroDivisionError :=
  ⟨rfl, label_companies_empty_table_zero_division ["ACME"] [] rfl⟩

/-- Claim C10: the declared range `(3000, 3600)` with tier 3 is completely
shadowed by the earlier `(2800, 3600)` with tier 1: every code in
`[3000, 3600)` gets tier 1, and tier 3 is returned exactly for the codes
in `[5000, 5200)`. -/
theorem tier3_range_shadowed :
    (∀ code : Int, 3000 ≤ code → code < 3600 → sic_to_tier code = 1)
    ∧ (∀ code : Int, sic_to_tier code = 3 ↔ 5000 ≤ code ∧ code < 5200) :=
  ⟨fun code h1 h2 => sicVal_3000_3600 code h1 h2, fun code => sicVal_eq_3 code⟩

/-- Witness for C10 at codes 3300 and 5100. -/
theorem tier3_range_shadowed_witness :
    (3000 : Int) ≤ 3300 ∧ (3300 : Int) < 3600 ∧ sic_to_tier 3300 = 1 ∧
    (sic_to_tier 5100 = 3 ↔ (5000 : Int) ≤ 5100 ∧ (5100 : Int) < 5200) :=
  ⟨by decide, by decide, tier3_range_shadowed.1 3300 (by decide) (by decide),
    tier3_range_shadowed.2 5100⟩
